import Mathlib

/-!
Verification of the anchor-relative geometry model of the `axpositioning`
repository (package `axpositioning`, files `axpositioning/axpositioning.py`,
`axpositioning/gui/model.py`, `axpositioning/gui/main.py`, and the legacy
top-level variant `axpositioning.py`).

The numeric state of a `PositioningAxes` object is embedded over `ℚ`
(exact arithmetic standing in for Python floats; the repository's own spec
phrases its invariants as exact identities).  Division in `ℚ` is total with
`x / 0 = 0`; the Python source would raise `ZeroDivisionError` there, so
theorems that depend on a quotient carry explicit nonzero hypotheses where
it matters.
-/

namespace Axpositioning

/-- The figure context: physical size in inches
(`figure.get_size_inches()` in the source). -/
structure Figure where
  fw : ℚ
  fh : ℚ
deriving DecidableEq, Repr

/-- State of one `PositioningAxes` object:
absolute bounds `(xll, yll, w, h)` (`self._position.bounds`), the stored
anchor coefficient pair (`self._anchor`, as set by `set_anchor` from a
valid input), and the `lock_aspect` flag (`self._locked_aspect`). -/
structure PAx where
  xll : ℚ
  yll : ℚ
  w : ℚ
  h : ℚ
  anchor : ℚ × ℚ
  lockedAspect : Bool
deriving DecidableEq, Repr

namespace PAx

/-- `PositioningAxes.x2xll`: `x - self.w * self.get_anchor()[0]`. -/
def x2xll (A : PAx) (x : ℚ) : ℚ :=
  x - A.w * A.anchor.1

/-- `PositioningAxes.xll2x`: `xll + self.w * self.get_anchor()[0]`. -/
def xll2x (A : PAx) (xll : ℚ) : ℚ :=
  xll + A.w * A.anchor.1

/-- `PositioningAxes.y2yll`: `y - self.h * self.get_anchor()[1]`. -/
def y2yll (A : PAx) (y : ℚ) : ℚ :=
  y - A.h * A.anchor.2

/-- `PositioningAxes.yll2y`: `yll + self.h * self.get_anchor()[1]`. -/
def yll2y (A : PAx) (yll : ℚ) : ℚ :=
  yll + A.h * A.anchor.2

/-- Property getter `PositioningAxes.x`: `self.xll2x(self.bounds[0])`. -/
def xGet (A : PAx) : ℚ := A.xll2x A.xll

/-- Property getter `PositioningAxes.y`: `self.yll2y(self.bounds[1])`. -/
def yGet (A : PAx) : ℚ := A.yll2y A.yll

/-- Property setter `PositioningAxes.x`: stores `xll = self.x2xll(x)`,
leaving `yll, w, h` unchanged. -/
def setX (A : PAx) (x : ℚ) : PAx :=
  { A with xll := A.x2xll x }

/-- Property setter `PositioningAxes.y`: stores `yll = self.y2yll(y)`,
leaving `xll, w, h` unchanged. -/
def setY (A : PAx) (y : ℚ) : PAx :=
  { A with yll := A.y2yll y }

/-- `PositioningAxes.figaspect`: `fw / fh` of the figure. -/
def figaspect (fig : Figure) : ℚ := fig.fw / fig.fh

/-- Property `PositioningAxes.aspect`:
`self.figaspect * (aw / ah)` with `(aw, ah)` the bounds' width/height. -/
def aspect (fig : Figure) (A : PAx) : ℚ :=
  figaspect fig * (A.w / A.h)

/-- Property `PositioningAxes.axaspect`: `self.figaspect / self.aspect`. -/
def axaspect (fig : Figure) (A : PAx) : ℚ :=
  figaspect fig / aspect fig A

/-- Property setter `PositioningAxes.w`:
`xll += anchor[0] * (w0 - w)`; when `_locked_aspect`, additionally
`h0, h = h, w / axaspect` and `yll += anchor[1] * (h0 - h)` (the
`axaspect` read happens before the bounds are replaced). -/
def setW (fig : Figure) (A : PAx) (w : ℚ) : PAx :=
  let xll := A.xll + A.anchor.1 * (A.w - w)
  if A.lockedAspect then
    let h := w / axaspect fig A
    let yll := A.yll + A.anchor.2 * (A.h - h)
    { A with xll := xll, yll := yll, w := w, h := h }
  else
    { A with xll := xll, w := w }

/-- Property setter `PositioningAxes.h`:
`yll += anchor[1] * (h0 - h)`; when `_locked_aspect`, additionally
`w0, w = w, h * axaspect` and `xll += anchor[0] * (w0 - w)`. -/
def setH (fig : Figure) (A : PAx) (h : ℚ) : PAx :=
  let yll := A.yll + A.anchor.2 * (A.h - h)
  if A.lockedAspect then
    let w := h * axaspect fig A
    let xll := A.xll + A.anchor.1 * (A.w - w)
    { A with xll := xll, yll := yll, w := w, h := h }
  else
    { A with yll := yll, h := h }

/-- `bounds` setter / `Axes.set_position`: replaces the absolute bounds,
keeping anchor and lock flag. -/
def setBounds (A : PAx) (b : ℚ × ℚ × ℚ × ℚ) : PAx :=
  { A with xll := b.1, yll := b.2.1, w := b.2.2.1, h := b.2.2.2 }

/-- `PositioningAxes.split(ratio, spacing, wsplit)`.
Reads `pos, size` as the anchor-relative position and the size along the
chosen axis, raises `ValueError` when `spacing >= size`, otherwise cuts
`(size - spacing)` at `ratio`, shrinks the original in place through the
anchor-preserving `w`/`h` setter and returns a new object built from
`newbounds` with the same figure, lock flag and anchor.  The error case is
`Except.error`; `.ok (first, second)` returns the mutated original and the
new object. -/
def split (fig : Figure) (A : PAx) (ratio spacing : ℚ) (wsplit : Bool) :
    Except String (PAx × PAx) :=
  let pos := if wsplit then A.xGet else A.yGet
  let size := if wsplit then A.w else A.h
  if spacing ≥ size then
    .error "spacing too largs, cannot split axes"
  else
    let size1 := (size - spacing) * ratio
    let size2 := (size - spacing) * (1 - ratio)
    let pos2 := pos + size1 + spacing
    if wsplit then
      let newbounds := (pos2, A.yGet, size2, A.h)
      let first := setW fig A size1
      .ok (first, { xll := newbounds.1, yll := newbounds.2.1,
                    w := newbounds.2.2.1, h := newbounds.2.2.2,
                    anchor := A.anchor, lockedAspect := A.lockedAspect })
    else
      let newbounds := (A.xGet, pos2, A.w, size2)
      let first := setH fig A size1
      .ok (first, { xll := newbounds.1, yll := newbounds.2.1,
                    w := newbounds.2.2.1, h := newbounds.2.2.2,
                    anchor := A.anchor, lockedAspect := A.lockedAspect })

end PAx

/-- The ratio range check performed by `AxPositioningEditor.axes_split`
in gui/main.py (`if ratio < 0 or ratio > 1: show_error(...)`); it exists
only in the GUI layer, not in `PositioningAxes.split`. -/
def guiSplitRatioRejected (ratio : ℚ) : Bool := ratio < 0 || ratio > 1

/-- `matplotlib.transforms.Bbox.coefs`, the anchor preset table looked up
by `PositioningAxes.set_anchor` (external library constant; it also backs
the preset list in spec §3). -/
def coefs : String → Option (ℚ × ℚ)
  | "C" => some (1/2, 1/2)
  | "SW" => some (0, 0)
  | "S" => some (1/2, 0)
  | "SE" => some (1, 0)
  | "E" => some (1, 1/2)
  | "NE" => some (1, 1)
  | "N" => some (1/2, 1)
  | "NW" => some (0, 1)
  | "W" => some (0, 1/2)
  | _ => none

/-- A dynamic (Python-typed) value passed to the anchor setters: a string,
a 2-tuple of numbers, a malformed 3-tuple, or a bare number. -/
inductive PyVal where
  | str (s : String)
  | pair (a b : ℚ)
  | triple (a b c : ℚ)
  | num (q : ℚ)
deriving DecidableEq, Repr

/-- `PositioningAxes.set_anchor` (axpositioning/axpositioning.py, lines
20-24): `if a in Bbox.coefs: a = Bbox.coefs[a]`, then `self._anchor = a`
unconditionally.  The method contains no `raise`, so viewed as a fallible
operation it always returns `.ok` with the value that gets stored. -/
def set_anchor (a : PyVal) : Except String PyVal :=
  match a with
  | .str s =>
    match coefs s with
    | some p => .ok (.pair p.1 p.2)
    | none => .ok (.str s)
  | v => .ok v

/-- The `posdict` table of the legacy top-level `axpositioning.py`'s
`set_anchor_point`. -/
def posdict : String → Option (ℚ × ℚ)
  | "ll" => some (0, 0)
  | "ul" => some (0, 1)
  | "ur" => some (1, 1)
  | "lr" => some (1, 0)
  | "c" => some (1/2, 1/2)
  | _ => none

/-- Legacy `PositioningAxes.set_anchor_point` (top-level
`axpositioning.py`): a string is resolved through `posdict` (`KeyError`
on an unrecognized name), then a non-tuple value raises `TypeError`;
tuples of any arity pass unvalidated and are stored. -/
def set_anchor_point (pos : PyVal) : Except String PyVal :=
  match pos with
  | .str s =>
    match posdict s with
    | some p => .ok (.pair p.1 p.2)
    | none => .error "invalid position name"
  | .pair a b => .ok (.pair a b)
  | .triple a b c => .ok (.triple a b c)
  | .num _ => .error "invalid position type"

/-- State of one `GuiPositioningAxes` (gui/model.py): a `PositioningAxes`
plus the `_selected` flag. -/
structure GAx where
  pa : PAx
  selected : Bool
deriving DecidableEq, Repr

/-- State of `AxesSet` (gui/model.py): the figure, the set-level anchor
name, and the ordered name-to-axes mapping (an `OrderedDict`, embedded as
an ordered association list with single-character keys). -/
structure AxesSet where
  figure : Figure
  anchor : String
  axes : List (Char × GAx)
deriving DecidableEq, Repr

namespace AxesSet

/-- `set_anchor` applied to a recognized preset name (every call site of
`update_anchor` passes a `Bbox.coefs` key, so the stored anchor is the
looked-up coefficient pair). -/
def resolveAnchor (s : String) : ℚ × ℚ := (coefs s).getD (0, 0)

/-- `AxesSet.next_axes_name`: scan `chr(65 + i)` for `i in range(50)` and
return the first candidate not already used as a key; raise `ValueError`
when all 50 candidates are taken. -/
def next_axes_name (axnames : List Char) : Except String Char :=
  match (List.range 50).find? (fun i => ! axnames.contains (Char.ofNat (65 + i))) with
  | some i => .ok (Char.ofNat (65 + i))
  | none => .error "could not find unique axis name"

/-- `AxesSet.add(x, y, w, h)` with the default arguments (`anchor=None`,
hence the set-level anchor, and `apply_anchor=False`): generate the next
free name and append a fresh unselected `GuiPositioningAxes` with the
given absolute bounds; new keys go to the end of the `OrderedDict`. -/
def add (s : AxesSet) (x y w h : ℚ) : Except String AxesSet :=
  match next_axes_name (s.axes.map Prod.fst) with
  | .error e => .error e
  | .ok n =>
    .ok { s with
      axes := s.axes ++ [(n, ⟨⟨x, y, w, h, resolveAnchor s.anchor, false⟩, false⟩)] }

/-- `OrderedDict.pop(name)`: remove the (unique) entry with that key. -/
def popName (s : AxesSet) (n : Char) : AxesSet :=
  { s with axes := s.axes.filter (fun e => e.1 ≠ n) }

/-- The keys of the set, in order. -/
def names (s : AxesSet) : List Char := s.axes.map Prod.fst

/-- `AxesSet.selected`: the entries whose `_selected` flag is set, in
collection order (`selected_names` is the same list of keys). -/
def selectedEntries (s : AxesSet) : List (Char × GAx) :=
  s.axes.filter (fun e => e.2.selected)

/-- `AxPositioningEditor.update_anchor(pos, clicked=True)`: call
`a.set_anchor(pos)` on every axes and store `pos` as the set anchor. -/
def update_anchor (s : AxesSet) (pos : String) : AxesSet :=
  { s with
    axes := s.axes.map
      (fun e => (e.1, { e.2 with pa := { e.2.pa with anchor := resolveAnchor pos } })),
    anchor := pos }

/-- `min(...)` over a nonempty Python generator of floats. -/
def minList : List ℚ → ℚ
  | [] => 0
  | x :: xs => xs.foldl min x

/-- `max(...)` over a nonempty Python generator of floats. -/
def maxList : List ℚ → ℚ
  | [] => 0
  | x :: xs => xs.foldl max x

/-- `AxPositioningEditor.axes_join(names, axes)` where `names`/`axes` are
the selected entries in collection order: remember the set anchor, force
the anchor to `'SW'` on everything, take the bounding box of the selected
entries' anchor-relative extents (`min x`, `min y`, `max (x + w)`,
`max (y + h)`), `set_position` the first selected entry to that box,
`pop` the remaining selected names, and re-apply the remembered anchor.
`execute_current_action` only invokes the action when some entry is
selected, so the no-selection branch leaves the set untouched. -/
def axes_join (s : AxesSet) : AxesSet :=
  let anchor0 := s.anchor
  let s1 := update_anchor s "SW"
  match s1.selectedEntries with
  | [] => s
  | e0 :: rest =>
    let sel := e0 :: rest
    let xll := minList (sel.map (fun e => e.2.pa.xGet))
    let yll := minList (sel.map (fun e => e.2.pa.yGet))
    let xur := maxList (sel.map (fun e => e.2.pa.xGet + e.2.pa.w))
    let yur := maxList (sel.map (fun e => e.2.pa.yGet + e.2.pa.h))
    let axes2 := s1.axes.map (fun e =>
      if e.1 = e0.1 then
        (e.1, { e.2 with pa := e.2.pa.setBounds (xll, yll, xur - xll, yur - yll) })
      else e)
    let axes3 := axes2.filter (fun e => ! (rest.map Prod.fst).contains e.1)
    update_anchor { s1 with axes := axes3 } anchor0

end AxesSet

end Axpositioning

namespace Axpositioning

open PAx

/-- C1: Anchor round-trip is the identity: `x2xll (xll2x xll) = xll` and
`y2yll (yll2y yll) = yll`, exactly, for every rectangle state (hence every
bounds and every anchor coefficient pair) and every input coordinate. -/
theorem anchor_roundtrip_identity (A : PAx) (xll yll : ℚ) :
    A.x2xll (A.xll2x xll) = xll ∧ A.y2yll (A.yll2y yll) = yll := by
  constructor <;> simp [PAx.x2xll, PAx.xll2x, PAx.y2yll, PAx.yll2y]

/-- C2: with the aspect lock disabled, assigning width `w2` through the
`w` setter stores `xll' = xll + ax * (w - w2)`, preserves the
anchor-relative `x` read, and leaves `yll` and `h` unchanged. -/
theorem setW_unlocked_preserves_anchor (fig : Figure) (A : PAx) (w2 : ℚ)
    (hA : A.lockedAspect = false) :
    (setW fig A w2).xll = A.xll + A.anchor.1 * (A.w - w2) ∧
    (setW fig A w2).xGet = A.xGet ∧
    (setW fig A w2).yll = A.yll ∧
    (setW fig A w2).h = A.h := by
  refine ⟨?_, ?_, ?_, ?_⟩ <;>
  · simp [PAx.setW, hA, PAx.xGet, PAx.xll2x]; try ring

/-- Witness for C2 at bounds (0.1, 0.1, 0.8, 0.8), anchor C, `w := 0.4`. -/
theorem setW_unlocked_preserves_anchor_witness :
    (PAx.lockedAspect ⟨1/10, 1/10, 4/5, 4/5, (1/2, 1/2), false⟩ = false) ∧
    ((setW ⟨6, 6⟩ ⟨1/10, 1/10, 4/5, 4/5, (1/2, 1/2), false⟩ (2/5)).xll
        = 1/10 + (1/2) * (4/5 - 2/5) ∧
      (setW ⟨6, 6⟩ ⟨1/10, 1/10, 4/5, 4/5, (1/2, 1/2), false⟩ (2/5)).xGet
        = PAx.xGet ⟨1/10, 1/10, 4/5, 4/5, (1/2, 1/2), false⟩ ∧
      (setW ⟨6, 6⟩ ⟨1/10, 1/10, 4/5, 4/5, (1/2, 1/2), false⟩ (2/5)).yll = 1/10 ∧
      (setW ⟨6, 6⟩ ⟨1/10, 1/10, 4/5, 4/5, (1/2, 1/2), false⟩ (2/5)).h = 4/5) :=
  ⟨rfl, setW_unlocked_preserves_anchor ⟨6, 6⟩ _ _ rfl⟩

/-- C3: with the aspect lock set, assigning width `w2` through the `w`
setter recomputes the height as `h2 = w2 / axaspect` with `axaspect`
evaluated from the pre-mutation bounds, adjusts `yll` by `ay * (h - h2)`
and `xll` by `ax * (w - w2)`, and both anchor-relative reads `x` and `y`
are preserved. -/
theorem setW_locked_cascade (fig : Figure) (A : PAx) (w2 : ℚ)
    (hA : A.lockedAspect = true) :
    (setW fig A w2).h = w2 / axaspect fig A ∧
    (setW fig A w2).yll = A.yll + A.anchor.2 * (A.h - w2 / axaspect fig A) ∧
    (setW fig A w2).xll = A.xll + A.anchor.1 * (A.w - w2) ∧
    (setW fig A w2).xGet = A.xGet ∧
    (setW fig A w2).yGet = A.yGet := by
  refine ⟨?_, ?_, ?_, ?_, ?_⟩ <;>
  · simp [PAx.setW, hA, PAx.xGet, PAx.xll2x, PAx.yGet, PAx.yll2y]; try ring

/-- Witness for C3: the spec's concrete example — figure 6×6, bounds
(0.1, 0.1, 0.8, 0.8) (so `axaspect = 1`), lock on, `w := 0.4` gives
`h = 0.4` with `x` and `y` anchor-preserved. -/
theorem setW_locked_cascade_witness :
    (PAx.lockedAspect ⟨1/10, 1/10, 4/5, 4/5, (1/2, 1/2), true⟩ = true) ∧
    ((setW ⟨6, 6⟩ ⟨1/10, 1/10, 4/5, 4/5, (1/2, 1/2), true⟩ (2/5)).h
        = (2/5) / axaspect ⟨6, 6⟩ ⟨1/10, 1/10, 4/5, 4/5, (1/2, 1/2), true⟩ ∧
      (setW ⟨6, 6⟩ ⟨1/10, 1/10, 4/5, 4/5, (1/2, 1/2), true⟩ (2/5)).yll
        = 1/10 + (1/2) * (4/5 - (2/5) / axaspect ⟨6, 6⟩ ⟨1/10, 1/10, 4/5, 4/5, (1/2, 1/2), true⟩) ∧
      (setW ⟨6, 6⟩ ⟨1/10, 1/10, 4/5, 4/5, (1/2, 1/2), true⟩ (2/5)).xll
        = 1/10 + (1/2) * (4/5 - 2/5) ∧
      (setW ⟨6, 6⟩ ⟨1/10, 1/10, 4/5, 4/5, (1/2, 1/2), true⟩ (2/5)).xGet
        = PAx.xGet ⟨1/10, 1/10, 4/5, 4/5, (1/2, 1/2), true⟩ ∧
      (setW ⟨6, 6⟩ ⟨1/10, 1/10, 4/5, 4/5, (1/2, 1/2), true⟩ (2/5)).yGet
        = PAx.yGet ⟨1/10, 1/10, 4/5, 4/5, (1/2, 1/2), true⟩) ∧
    (setW ⟨6, 6⟩ ⟨1/10, 1/10, 4/5, 4/5, (1/2, 1/2), true⟩ (2/5)).h = 2/5 :=
  ⟨rfl, setW_locked_cascade ⟨6, 6⟩ _ _ rfl,
    by norm_num [PAx.setW, PAx.axaspect, PAx.aspect, PAx.figaspect]⟩

/-- C4: the claim that a locked `w` mutation preserves `axaspect` is FALSE
on the code: `axaspect = figaspect / (figaspect * (w/h)) = h/w`, and the
cascade sets `h2 = w2 / axaspect = w2 * (w/h)`, so the post-mutation
`axaspect` is `w/h` — the reciprocal of the pre-mutation value.  Concrete
failing input: figure 6×6, bounds (0.1, 0.1, 0.8, 0.4), anchor C, lock on,
`w := 0.4`: `axaspect` goes from 1/2 to 2 (and the same inversion happens
through the `h` setter). -/
theorem setW_locked_axaspect_not_preserved :
    (PAx.lockedAspect ⟨1/10, 1/10, 4/5, 2/5, (1/2, 1/2), true⟩ = true) ∧
    axaspect ⟨6, 6⟩ ⟨1/10, 1/10, 4/5, 2/5, (1/2, 1/2), true⟩ = 1/2 ∧
    axaspect ⟨6, 6⟩ (setW ⟨6, 6⟩ ⟨1/10, 1/10, 4/5, 2/5, (1/2, 1/2), true⟩ (2/5)) = 2 ∧
    axaspect ⟨6, 6⟩ (setW ⟨6, 6⟩ ⟨1/10, 1/10, 4/5, 2/5, (1/2, 1/2), true⟩ (2/5))
      ≠ axaspect ⟨6, 6⟩ ⟨1/10, 1/10, 4/5, 2/5, (1/2, 1/2), true⟩ ∧
    axaspect ⟨6, 6⟩ (setH ⟨6, 6⟩ ⟨1/10, 1/10, 4/5, 2/5, (1/2, 1/2), true⟩ (2/5))
      ≠ axaspect ⟨6, 6⟩ ⟨1/10, 1/10, 4/5, 2/5, (1/2, 1/2), true⟩ := by
  refine ⟨rfl, ?_, ?_, ?_, ?_⟩ <;>
  · norm_num [PAx.setW, PAx.setH, PAx.axaspect, PAx.aspect, PAx.figaspect]

/-- Helper: the successful shape of `split` along the width. -/
theorem split_eq_ok_wsplit (fig : Figure) (A : PAx) (r s : ℚ)
    (h : ¬ s ≥ A.w) :
    PAx.split fig A r s true =
      .ok (setW fig A ((A.w - s) * r),
        ⟨A.xGet + (A.w - s) * r + s, A.yGet, (A.w - s) * (1 - r), A.h,
          A.anchor, A.lockedAspect⟩) := by
  simp [PAx.split, h]

/-- Helper: the successful shape of `split` along the height. -/
theorem split_eq_ok_hsplit (fig : Figure) (A : PAx) (r s : ℚ)
    (h : ¬ s ≥ A.h) :
    PAx.split fig A r s false =
      .ok (setH fig A ((A.h - s) * r),
        ⟨A.xGet, A.yGet + (A.h - s) * r + s, A.w, (A.h - s) * (1 - r),
          A.anchor, A.lockedAspect⟩) := by
  simp [PAx.split, h]

/-- C5: splitting along the width with ratio `r` and spacing `s`
(`s < w`, lock off) mutates the original into a first part of width
`(w - s) * r` with its anchor-relative `x` and its height unchanged, and
returns a second rectangle of width `(w - s) * (1 - r)`, the same height
and the same anchor, whose stored lower-left x is `x + (w - s) * r + s`
(with `x` the original anchor-relative position). -/
theorem split_partition_geometry (fig : Figure) (A : PAx) (r s : ℚ)
    (h1 : A.lockedAspect = false) (h2 : s < A.w) :
    ∃ B C, PAx.split fig A r s true = .ok (B, C) ∧
      B.w = (A.w - s) * r ∧ B.h = A.h ∧ B.xGet = A.xGet ∧ B.anchor = A.anchor ∧
      C.w = (A.w - s) * (1 - r) ∧ C.h = A.h ∧ C.anchor = A.anchor ∧
      C.xll = A.xGet + (A.w - s) * r + s := by
  refine ⟨_, _, split_eq_ok_wsplit fig A r s (not_le.mpr h2),
    ?_, ?_, ?_, ?_, rfl, rfl, rfl, rfl⟩ <;>
  · simp [PAx.setW, h1, PAx.xGet, PAx.xll2x]; try ring

/-- Witness for C5: the spec's concrete example — bounds (0, 0, 1, 1),
lower-left anchor, ratio 0.5, spacing 0.1: the first part has width 0.45
at x = 0 and the second part has width 0.45 at x = 0.55. -/
theorem split_partition_geometry_witness :
    (PAx.lockedAspect ⟨0, 0, 1, 1, (0, 0), false⟩ = false ∧ (1/10 : ℚ) < 1) ∧
    (∃ B C, PAx.split ⟨6, 6⟩ ⟨0, 0, 1, 1, (0, 0), false⟩ (1/2) (1/10) true = .ok (B, C) ∧
      B.w = ((1 : ℚ) - 1/10) * (1/2) ∧ B.h = 1 ∧
      B.xGet = PAx.xGet ⟨0, 0, 1, 1, (0, 0), false⟩ ∧ B.anchor = (0, 0) ∧
      C.w = ((1 : ℚ) - 1/10) * (1 - 1/2) ∧ C.h = 1 ∧ C.anchor = (0, 0) ∧
      C.xll = PAx.xGet ⟨0, 0, 1, 1, (0, 0), false⟩ + ((1 : ℚ) - 1/10) * (1/2) + 1/10) ∧
    (((1 : ℚ) - 1/10) * (1/2) = 9/20 ∧
      PAx.xGet ⟨0, 0, 1, 1, (0, 0), false⟩ = 0 ∧
      PAx.xGet ⟨0, 0, 1, 1, (0, 0), false⟩ + ((1 : ℚ) - 1/10) * (1/2) + 1/10 = 11/20) :=
  ⟨⟨rfl, by norm_num⟩,
    split_partition_geometry ⟨6, 6⟩ ⟨0, 0, 1, 1, (0, 0), false⟩ (1/2) (1/10) rfl (by norm_num),
    by norm_num [PAx.xGet, PAx.xll2x]⟩

/-- C6: `split` with spacing no smaller than the size along the chosen
axis fails with the source's `ValueError`; in the pure embedding the error
is returned before any part of the state is rebuilt, so no mutation of the
rectangle is observable. -/
theorem split_spacing_too_large (fig : Figure) (A : PAx) (r s : ℚ)
    (ws : Bool) (h : (if ws then A.w else A.h) ≤ s) :
    PAx.split fig A r s ws = .error "spacing too largs, cannot split axes" := by
  cases ws <;> simp_all [PAx.split]

/-- Witness for C6: spacing 1.5 on bounds (0, 0, 1, 1) raises. -/
theorem split_spacing_too_large_witness :
    ((if true then (1 : ℚ) else 1) ≤ 3/2) ∧
    PAx.split ⟨6, 6⟩ ⟨0, 0, 1, 1, (0, 0), false⟩ (1/2) (3/2) true =
      .error "spacing too largs, cannot split axes" :=
  ⟨by norm_num,
    split_spacing_too_large ⟨6, 6⟩ ⟨0, 0, 1, 1, (0, 0), false⟩ (1/2) (3/2) true (by norm_num)⟩

/-- C10: the core `split` succeeds for every ratio (including `r < 0` and
`r > 1`) as soon as the spacing is smaller than the size along the chosen
axis, and the two part sizes along that axis are `(size - s) * r` and
`(size - s) * (1 - r)`, summing exactly to `size - s`; the `[0, 1]` range
check on the ratio exists only in the GUI layer (`guiSplitRatioRejected`),
which rejects 2 and -1 while the core accepts them. -/
theorem split_ratio_unchecked (fig : Figure) (A : PAx) (r s : ℚ)
    (ws : Bool) (h : s < (if ws then A.w else A.h)) :
    (∃ B C, PAx.split fig A r s ws = .ok (B, C) ∧
      (if ws then B.w else B.h) = ((if ws then A.w else A.h) - s) * r ∧
      (if ws then C.w else C.h) = ((if ws then A.w else A.h) - s) * (1 - r) ∧
      (if ws then B.w + C.w else B.h + C.h) = (if ws then A.w else A.h) - s) ∧
    (guiSplitRatioRejected 2 = true ∧ guiSplitRatioRejected (-1) = true ∧
      guiSplitRatioRejected (1/2) = false) := by
  refine ⟨?_, by norm_num [guiSplitRatioRejected], by norm_num [guiSplitRatioRejected],
    by norm_num [guiSplitRatioRejected]⟩
  cases ws
  · refine ⟨_, _, split_eq_ok_hsplit fig A r s (not_le.mpr (by simpa using h)), ?_, rfl, ?_⟩
    · cases hA : A.lockedAspect <;> simp [PAx.setH, hA]
    · cases hA : A.lockedAspect <;> · simp [PAx.setH, hA]; ring
  · refine ⟨_, _, split_eq_ok_wsplit fig A r s (not_le.mpr (by simpa using h)), ?_, rfl, ?_⟩
    · cases hA : A.lockedAspect <;> simp [PAx.setW, hA]
    · cases hA : A.lockedAspect <;> · simp [PAx.setW, hA]; ring

/-- Witness for C10 at ratio 2 (outside [0, 1]), bounds (0, 0, 1, 1),
spacing 0.1: the core split succeeds. -/
theorem split_ratio_unchecked_witness :
    ((1/10 : ℚ) < (if true then (1 : ℚ) else 1)) ∧
    ((∃ B C, PAx.split ⟨6, 6⟩ ⟨0, 0, 1, 1, (0, 0), false⟩ 2 (1/10) true = .ok (B, C) ∧
      (if true then B.w else B.h) = ((if true then (1 : ℚ) else 1) - 1/10) * 2 ∧
      (if true then C.w else C.h) = ((if true then (1 : ℚ) else 1) - 1/10) * (1 - 2) ∧
      (if true then B.w + C.w else B.h + C.h) = (if true then (1 : ℚ) else 1) - 1/10) ∧
    (guiSplitRatioRejected 2 = true ∧ guiSplitRatioRejected (-1) = true ∧
      guiSplitRatioRejected (1/2) = false)) :=
  ⟨by norm_num,
    split_ratio_unchecked ⟨6, 6⟩ ⟨0, 0, 1, 1, (0, 0), false⟩ 2 (1/10) true (by norm_num)⟩

/-- C8: unique-name generation scans `chr(65 + i)` for the first unused
letter: an empty set yields 'A', then 'B', then 'C' in insertion order;
after deleting 'B' from {A, B, C} the next `add` reuses 'B' (appended at
the end of the ordered mapping); and with all 50 candidates taken the
generator fails with the source's `ValueError`. -/
theorem next_axes_name_first_unused :
    (AxesSet.next_axes_name [] = .ok 'A') ∧
    (AxesSet.next_axes_name ['A'] = .ok 'B') ∧
    (AxesSet.next_axes_name ['A', 'B'] = .ok 'C') ∧
    (AxesSet.next_axes_name ['A', 'C'] = .ok 'B') ∧
    (AxesSet.next_axes_name ((List.range 50).map (fun i => Char.ofNat (65 + i)))
      = .error "could not find unique axis name") ∧
    (∃ s1 s2 s3 s4 : AxesSet,
      AxesSet.add ⟨⟨6, 6⟩, "C", []⟩ 0 0 (1/2) (1/2) = .ok s1 ∧ s1.names = ['A'] ∧
      s1.add 0 0 (1/2) (1/2) = .ok s2 ∧ s2.names = ['A', 'B'] ∧
      s2.add 0 0 (1/2) (1/2) = .ok s3 ∧ s3.names = ['A', 'B', 'C'] ∧
      (s3.popName 'B').names = ['A', 'C'] ∧
      (s3.popName 'B').add 0 0 (1/2) (1/2) = .ok s4 ∧ s4.names = ['A', 'C', 'B']) := by
  exact ⟨rfl, rfl, rfl, rfl, rfl,
    ⟨_, _, _, _, rfl, rfl, rfl, rfl, rfl, rfl, rfl, rfl, rfl⟩⟩

/-- C9: counterexample — "X" is not a recognized preset name
(`coefs "X" = none`) and is not a 2-element numeric pair, yet `set_anchor`
raises nothing: it succeeds and stores the bad string itself as the
anchor. -/
theorem set_anchor_accepts_invalid :
    coefs "X" = none ∧ set_anchor (.str "X") = .ok (.str "X") :=
  ⟨rfl, rfl⟩

/-- C9 (amended): `set_anchor` performs no validation and never raises —
a recognized preset name is converted to its coefficient pair and every
other value (unrecognized names and malformed pairs included) is stored
as-is; only the legacy `set_anchor_point` raises, on unrecognized names
and non-tuple values, and even it accepts tuples of the wrong arity. -/
theorem set_anchor_never_raises :
    (∀ a : PyVal, ∃ v, set_anchor a = .ok v) ∧
    set_anchor (.str "C") = .ok (.pair (1/2) (1/2)) ∧
    set_anchor (.str "X") = .ok (.str "X") ∧
    set_anchor (.triple 1 2 3) = .ok (.triple 1 2 3) ∧
    set_anchor_point (.str "xx") = .error "invalid position name" ∧
    set_anchor_point (.num 5) = .error "invalid position type" ∧
    set_anchor_point (.triple 1 2 3) = .ok (.triple 1 2 3) := by
  refine ⟨?_, rfl, rfl, rfl, rfl, rfl, rfl⟩
  intro a
  cases a with
  | str s => cases h : coefs s <;> simp [set_anchor, h]
  | pair a b => exact ⟨_, rfl⟩
  | triple a b c => exact ⟨_, rfl⟩
  | num q => exact ⟨_, rfl⟩

/-- Helper: forcing an anchor on the whole set maps `selectedEntries`
entrywise, preserving names and selection flags. -/
theorem selectedEntries_update_anchor (s : AxesSet) (p : String) :
    (s.update_anchor p).selectedEntries =
      s.selectedEntries.map
        (fun e => (e.1, { e.2 with pa := { e.2.pa with anchor := AxesSet.resolveAnchor p } })) := by
  simp only [AxesSet.update_anchor, AxesSet.selectedEntries, List.filter_map]
  rfl

/-- Helper: `Prod.fst` image of a filter whose predicate reads the name. -/
theorem map_fst_filter_name (q : Char → Bool) (l : List (Char × GAx)) :
    (l.filter (fun e => q e.1)).map Prod.fst = (l.map Prod.fst).filter q := by
  induction l with
  | nil => rfl
  | cons a t ih => by_cases h : q a.1 <;> simp [List.filter_cons, h, ih]

/-- Helper: `Prod.fst` image of a name-preserving map. -/
theorem map_fst_name_preserving (f : Char × GAx → Char × GAx)
    (hf : ∀ e, (f e).1 = e.1) (l : List (Char × GAx)) :
    (l.map f).map Prod.fst = l.map Prod.fst := by
  induction l with
  | nil => rfl
  | cons a t ih => simp [hf a, ih]

/-- Helper: membership survives the join pipeline
(map, map, filter by a passing predicate, map). -/
theorem mem_map_filter_map_map {α : Type} (f g h : α → α) (q : α → Bool)
    (a : α) (l : List α) (ha : a ∈ l) (hq : q (g (f a)) = true) :
    h (g (f a)) ∈ ((((l.map f).map g).filter q).map h) :=
  List.mem_map_of_mem h
    (List.mem_filter.mpr ⟨List.mem_map_of_mem g (List.mem_map_of_mem f ha), hq⟩)

/-- C7: `axes_join` on a set with distinct names and selected entries
`e0 :: rest` (in collection order) keeps the set anchor, forces every
surviving entry's anchor back to the set anchor's coefficients, deletes
exactly the non-first selected entries, and the first selected name now
carries the union bounding box of the selected entries' absolute extents:
`(min xll, min yll, max (xll + w) - min xll, max (yll + h) - min yll)`
(the anchor having been neutralized to lower-left while the box was
computed, so the mins and maxes range over raw lower-left bounds). -/
theorem axes_join_bounding_box (s : AxesSet) (e0 : Char × GAx)
    (rest : List (Char × GAx))
    (hnd : s.names.Nodup) (hsel : s.selectedEntries = e0 :: rest) :
    s.axes_join.anchor = s.anchor ∧
    (∀ e ∈ s.axes_join.axes, e.2.pa.anchor = AxesSet.resolveAnchor s.anchor) ∧
    s.axes_join.names = s.names.filter (fun n => ! (rest.map Prod.fst).contains n) ∧
    (e0.1,
      ⟨⟨AxesSet.minList ((e0 :: rest).map fun e => e.2.pa.xll),
        AxesSet.minList ((e0 :: rest).map fun e => e.2.pa.yll),
        AxesSet.maxList ((e0 :: rest).map fun e => e.2.pa.xll + e.2.pa.w) -
          AxesSet.minList ((e0 :: rest).map fun e => e.2.pa.xll),
        AxesSet.maxList ((e0 :: rest).map fun e => e.2.pa.yll + e.2.pa.h) -
          AxesSet.minList ((e0 :: rest).map fun e => e.2.pa.yll),
        AxesSet.resolveAnchor s.anchor,
        e0.2.pa.lockedAspect⟩,
      e0.2.selected⟩) ∈ s.axes_join.axes := by
  have hsw : AxesSet.resolveAnchor "SW" = (0, 0) := rfl
  have hsel1 : (s.update_anchor "SW").selectedEntries =
      (e0.1, { e0.2 with pa := { e0.2.pa with anchor := (0, 0) } }) ::
        rest.map (fun e => (e.1, { e.2 with pa := { e.2.pa with anchor := (0, 0) } })) := by
    simp only [selectedEntries_update_anchor, hsel, hsw, List.map_cons]
  have hname : e0.1 ∉ rest.map Prod.fst := by
    have hsub : (s.selectedEntries.map Prod.fst).Sublist (s.axes.map Prod.fst) :=
      List.Sublist.map _ (List.filter_sublist _)
    have hnd2 : (s.selectedEntries.map Prod.fst).Nodup :=
      List.Nodup.sublist hsub hnd
    rw [hsel, List.map_cons] at hnd2
    exact (List.nodup_cons.mp hnd2).1
  have he0m : e0 ∈ s.axes := by
    have h1 : e0 ∈ s.selectedEntries := by rw [hsel]; exact List.mem_cons_self _ _
    exact (List.mem_filter.mp h1).1
  simp only [AxesSet.axes_join, hsel1]
  refine ⟨?_, ?_, ?_, ?_⟩
  · rfl
  · intro e he
    simp only [AxesSet.update_anchor, List.mem_map] at he
    obtain ⟨a, -, rfl⟩ := he
    rfl
  · rw [map_fst_name_preserving
      (fun e => (e.1, { e.2 with pa := { e.2.pa with anchor := (0, 0) } }))
      (fun e => rfl) rest]
    simp only [AxesSet.update_anchor, AxesSet.names]
    rw [map_fst_name_preserving
      (fun e => (e.1, { e.2 with pa := { e.2.pa with anchor := AxesSet.resolveAnchor s.anchor } }))
      (fun e => rfl)]
    rw [map_fst_filter_name (fun n => ! (rest.map Prod.fst).contains n)]
    rw [map_fst_name_preserving _ (by intro e; split <;> rfl)]
    exact congrArg (List.filter fun n => ! (rest.map Prod.fst).contains n)
      (map_fst_name_preserving
        (fun e => (e.1,
          ⟨⟨e.2.pa.xll, e.2.pa.yll, e.2.pa.w, e.2.pa.h, AxesSet.resolveAnchor "SW",
            e.2.pa.lockedAspect⟩, e.2.selected⟩))
        (fun e => rfl) s.axes)
  · simp only [AxesSet.update_anchor, List.mem_map, List.mem_filter]
    refine ⟨_, ⟨⟨_, ⟨e0, he0m, rfl⟩, rfl⟩, ?_⟩, ?_⟩
    · rw [map_fst_name_preserving
        (fun e => (e.1, { e.2 with pa := { e.2.pa with anchor := (0, 0) } }))
        (fun e => rfl) rest]
      simp [hname]
    · simp [PAx.setBounds, PAx.xGet, PAx.yGet, PAx.xll2x, PAx.yll2y, Function.comp_def]

/-- Witness for C7: the spec's concrete example — three selected
rectangles with bounds (0, 0, .2, .2), (.3, .3, .2, .2), (.5, .1, .1, .4)
(set anchor 'C'); join leaves a single rectangle 'A' with bounds
(0, 0, .6, .5) and the set anchor restored. -/
theorem axes_join_bounding_box_witness :
    ((AxesSet.names ⟨⟨6, 6⟩, "C",
        [('A', ⟨⟨0, 0, 1/5, 1/5, (1/2, 1/2), false⟩, true⟩),
         ('B', ⟨⟨3/10, 3/10, 1/5, 1/5, (1/2, 1/2), false⟩, true⟩),
         ('C', ⟨⟨1/2, 1/10, 1/10, 2/5, (1/2, 1/2), false⟩, true⟩)]⟩).Nodup ∧
      AxesSet.selectedEntries ⟨⟨6, 6⟩, "C",
        [('A', ⟨⟨0, 0, 1/5, 1/5, (1/2, 1/2), false⟩, true⟩),
         ('B', ⟨⟨3/10, 3/10, 1/5, 1/5, (1/2, 1/2), false⟩, true⟩),
         ('C', ⟨⟨1/2, 1/10, 1/10, 2/5, (1/2, 1/2), false⟩, true⟩)]⟩ =
        ('A', ⟨⟨0, 0, 1/5, 1/5, (1/2, 1/2), false⟩, true⟩) ::
          [('B', ⟨⟨3/10, 3/10, 1/5, 1/5, (1/2, 1/2), false⟩, true⟩),
           ('C', ⟨⟨1/2, 1/10, 1/10, 2/5, (1/2, 1/2), false⟩, true⟩)]) ∧
    (AxesSet.axes_join ⟨⟨6, 6⟩, "C",
        [('A', ⟨⟨0, 0, 1/5, 1/5, (1/2, 1/2), false⟩, true⟩),
         ('B', ⟨⟨3/10, 3/10, 1/5, 1/5, (1/2, 1/2), false⟩, true⟩),
         ('C', ⟨⟨1/2, 1/10, 1/10, 2/5, (1/2, 1/2), false⟩, true⟩)]⟩).anchor = "C" ∧
    AxesSet.axes_join ⟨⟨6, 6⟩, "C",
        [('A', ⟨⟨0, 0, 1/5, 1/5, (1/2, 1/2), false⟩, true⟩),
         ('B', ⟨⟨3/10, 3/10, 1/5, 1/5, (1/2, 1/2), false⟩, true⟩),
         ('C', ⟨⟨1/2, 1/10, 1/10, 2/5, (1/2, 1/2), false⟩, true⟩)]⟩ =
      ⟨⟨6, 6⟩, "C", [('A', ⟨⟨0, 0, 3/5, 1/2, (1/2, 1/2), false⟩, true⟩)]⟩ :=
  ⟨⟨by decide, rfl⟩,
    (axes_join_bounding_box
      ⟨⟨6, 6⟩, "C",
        [('A', ⟨⟨0, 0, 1/5, 1/5, (1/2, 1/2), false⟩, true⟩),
         ('B', ⟨⟨3/10, 3/10, 1/5, 1/5, (1/2, 1/2), false⟩, true⟩),
         ('C', ⟨⟨1/2, 1/10, 1/10, 2/5, (1/2, 1/2), false⟩, true⟩)]⟩
      ('A', ⟨⟨0, 0, 1/5, 1/5, (1/2, 1/2), false⟩, true⟩)
      [('B', ⟨⟨3/10, 3/10, 1/5, 1/5, (1/2, 1/2), false⟩, true⟩),
       ('C', ⟨⟨1/2, 1/10, 1/10, 2/5, (1/2, 1/2), false⟩, true⟩)]
      (by decide) rfl).1,
    by
      norm_num [AxesSet.axes_join, AxesSet.update_anchor, AxesSet.selectedEntries,
        AxesSet.resolveAnchor, coefs, AxesSet.minList, AxesSet.maxList,
        PAx.xGet, PAx.yGet, PAx.xll2x, PAx.yll2y, PAx.setBounds,
        List.filter_cons, min_def, max_def,
        (by decide : ('A' : Char) ≠ 'B'), (by decide : ('A' : Char) ≠ 'C'),
        (by decide : ('B' : Char) ≠ 'A'), (by decide : ('C' : Char) ≠ 'A'),
        (by decide : ('B' : Char) ≠ 'C'), (by decide : ('C' : Char) ≠ 'B')]⟩

end Axpositioning
